import Mathlib

/-!
Verification of the CRIME-RECORD complaint/case system.

This file gives a shallow embedding of the core logic of the repository:
the severity classifier (`severity_classifier`), the legal keyword matcher
(`legal_database.get_law_suggestions`), and the SQLite-backed store
operations of `database.py` (complaint search/count, the pending triage
queue, status transitions, case registration, and the analytics
resolution-time rollup), together with theorems settling the specified
properties.

Text columns are modelled as `List Char`; timestamps and dates as `Nat`
(the `DATE()` projection of a timestamp is modelled by division by the
number of seconds in a day); SQLite `REAL` columns that no operation ever
computes with are modelled as `Option Rat`.  The `CHECK` constraints of
the schema restrict `status` and `severity_level` to fixed enumerations,
which we model as inductive types.
-/

/-- Lowercasing of a character string, modelling Python `str.lower()` /
SQLite ASCII case folding. -/
def lowerL (s : List Char) : List Char := s.map Char.toLower

/-- Prefix test on character lists (`needle` begins `hay`). -/
def leadsWith : List Char → List Char → Bool
  | [], _ => true
  | _ :: _, [] => false
  | a :: as, b :: bs => a == b && leadsWith as bs

/-- Substring test: `containsSub needle hay` models Python `needle in hay`
for strings (and the core of SQLite `hay LIKE '%needle%'`). -/
def containsSub (needle : List Char) : List Char → Bool
  | [] => leadsWith needle []
  | c :: t => leadsWith needle (c :: t) || containsSub needle t

/-- Case-insensitive substring test, modelling SQLite `LIKE '%pat%'`
(which is ASCII case-insensitive). -/
def likeContains (hay pat : List Char) : Bool :=
  containsSub (lowerL pat) (lowerL hay)

/- ===================== Severity classifier ===================== -/

/-- High severity keywords of `classify_severity`. -/
def high_keywords : List (List Char) :=
  ["murder".data, "kill".data, "death".data, "rape".data, "assault".data,
   "kidnap".data, "bomb".data, "terror".data, "weapon".data, "gun".data,
   "knife".data, "violence".data, "threat".data, "emergency".data,
   "urgent".data, "serious".data, "critical".data, "dangerous".data,
   "life".data, "injury".data, "blood".data, "attack".data]

/-- Medium severity keywords of `classify_severity`. -/
def medium_keywords : List (List Char) :=
  ["theft".data, "robbery".data, "fraud".data, "cheat".data, "scam".data,
   "harassment".data, "abuse".data, "domestic".data, "cybercrime".data,
   "blackmail".data, "extortion".data, "vandalism".data, "property".data,
   "damage".data, "stolen".data, "missing".data, "lost".data]

/-- Low severity keywords of `classify_severity`. -/
def low_keywords : List (List Char) :=
  ["noise".data, "parking".data, "dispute".data, "argument".data,
   "complaint".data, "minor".data, "disturbance".data, "nuisance".data,
   "public".data, "traffic".data, "document".data]

/-- High severity category set of `classify_severity`. -/
def high_severity_categories : List (List Char) :=
  ["murder".data, "rape".data, "kidnapping".data, "terrorism".data, "assault".data]

/-- Medium severity category set of `classify_severity`. -/
def medium_severity_categories : List (List Char) :=
  ["theft".data, "fraud".data, "cybercrime".data, "harassment".data, "robbery".data]

/-- Low severity category set of `classify_severity`. -/
def low_severity_categories : List (List Char) :=
  ["traffic".data, "noise".data, "public nuisance".data, "document".data]

/-- Embedding of `classify_severity(title, description, category)` from
`severity_classifier.py`: category membership first, then keyword counts
over the lowercased `title ++ " " ++ description`, defaulting to medium. -/
def classify_severity (title description category : List Char) : List Char :=
  let text := lowerL (title ++ [' '] ++ description)
  if lowerL category ∈ high_severity_categories then "high".data
  else if lowerL category ∈ medium_severity_categories then "medium".data
  else if lowerL category ∈ low_severity_categories then "low".data
  else
    let high_count := high_keywords.countP (fun k => containsSub k text)
    let medium_count := medium_keywords.countP (fun k => containsSub k text)
    let low_count := low_keywords.countP (fun k => containsSub k text)
    if high_count > 0 then "high".data
    else if medium_count > 0 then "medium".data
    else if low_count > 0 then "low".data
    else "medium".data

/-- Reference algorithm for the classifier, written from the spec's words:
after lowercasing, category membership in the fixed high/medium/low sets
decides the tier without examining the text; otherwise the first tier whose
keyword list has any keyword occurring in the text wins, defaulting to
medium. -/
def classifySpec (category text : List Char) : List Char :=
  let t := lowerL text
  if lowerL category ∈ high_severity_categories then "high".data
  else if lowerL category ∈ medium_severity_categories then "medium".data
  else if lowerL category ∈ low_severity_categories then "low".data
  else if high_keywords.any (fun k => containsSub k t) then "high".data
  else if medium_keywords.any (fun k => containsSub k t) then "medium".data
  else if low_keywords.any (fun k => containsSub k t) then "low".data
  else "medium".data

/-- A positive `countP` is the same condition as `any`. -/
theorem countP_pos_eq_any (p : List Char → Bool) (l : List (List Char)) :
    (l.countP p > 0) = (l.any p = true) := by
  induction l with
  | nil => simp [List.countP, List.countP.go]
  | cons a t ih =>
    by_cases h : p a <;>
      simp [List.countP_cons, List.any_cons, h, ih]

/-- Lowercasing distributes over the kept text concatenation. -/
theorem lowerL_append (a b : List Char) :
    lowerL (a ++ b) = lowerL a ++ lowerL b := by
  simp [lowerL]

/-- C6: `classify_severity` agrees with the spec's reference algorithm on
every input (with the code's `text` being `title ++ " " ++ description`),
the category-match short-circuit gives `classify(category="Theft",
text="phone stolen") = medium`, and the result is always one of the three
tiers. -/
theorem classify_severity_eq_spec (title description category : List Char) :
    classify_severity title description category
      = classifySpec category (title ++ [' '] ++ description)
    ∧ classifySpec "Theft".data "phone stolen".data = "medium".data
    ∧ (classify_severity title description category = "high".data
        ∨ classify_severity title description category = "medium".data
        ∨ classify_severity title description category = "low".data) := by
  refine ⟨?_, by decide, ?_⟩
  · unfold classify_severity classifySpec
    simp only [countP_pos_eq_any]
  · unfold classify_severity
    dsimp only
    split_ifs <;> simp

/- ===================== Legal reference matcher ===================== -/

/-- Embedding of `get_law_suggestions(complaint_text, category)` from
`legal_database.py`.  The source lowercases both arguments but then scans
only `text_lower`; `category_lower` is computed and never used, which the
embedding reproduces. -/
def get_law_suggestions (complaint_text category : List Char) : List (List Char) :=
  let text_lower := lowerL complaint_text
  let _category_lower := lowerL category
  (if ["murder".data, "kill".data, "death".data].any
      (fun w => containsSub w text_lower) then ["BNS Section 103 - Murder".data] else [])
  ++ (if ["theft".data, "steal".data, "robbery".data].any
      (fun w => containsSub w text_lower) then ["BNS Section 304 - Theft".data] else [])
  ++ (if ["assault".data, "attack".data, "violence".data].any
      (fun w => containsSub w text_lower) then ["BNS Section 354 - Assault".data] else [])
  ++ (if ["fraud".data, "cheat".data, "scam".data].any
      (fun w => containsSub w text_lower) then ["BNS Section 420 - Fraud".data] else [])
  ++ (if ["threat".data, "intimidation".data, "blackmail".data].any
      (fun w => containsSub w text_lower) then ["BNS Section 506 - Intimidation".data] else [])

/-- The fixed keyword-to-law mapping table of `get_law_suggestions`, in its
insertion order. -/
def lawTable : List (List (List Char) × List Char) :=
  [(["murder".data, "kill".data, "death".data], "BNS Section 103 - Murder".data),
   (["theft".data, "steal".data, "robbery".data], "BNS Section 304 - Theft".data),
   (["assault".data, "attack".data, "violence".data], "BNS Section 354 - Assault".data),
   (["fraud".data, "cheat".data, "scam".data], "BNS Section 420 - Fraud".data),
   (["threat".data, "intimidation".data, "blackmail".data], "BNS Section 506 - Intimidation".data)]

/-- Reference lookup written from the spec's words: the laws of the mapping
table whose trigger keyword appears as a case-insensitive substring of the
text or of the category, in table order. -/
def suggestSpec (text category : List Char) : List (List Char) :=
  lawTable.filterMap fun e =>
    if e.1.any (fun w => containsSub w (lowerL text) || containsSub w (lowerL category))
    then some e.2 else none

/-- Reference lookup for the amended claim: as `suggestSpec` but scanning
the text only, matching what the source does (the category is ignored). -/
def suggestSpecTextOnly (text : List Char) : List (List Char) :=
  lawTable.filterMap fun e =>
    if e.1.any (fun w => containsSub w (lowerL text))
    then some e.2 else none

/-- C9 counterexample: with empty text and category `"murder"`, the code
returns no suggestion while the spec's text-or-category lookup returns the
murder section, so the claim as stated is false. -/
theorem get_law_suggestions_ignores_category :
    get_law_suggestions [] "murder".data = []
    ∧ suggestSpec [] "murder".data = ["BNS Section 103 - Murder".data]
    ∧ get_law_suggestions [] "murder".data ≠ suggestSpec [] "murder".data := by
  refine ⟨by decide, by decide, by decide⟩

set_option maxHeartbeats 1600000 in
/-- C9 amended: for every text and category, `get_law_suggestions` returns
exactly the laws of the mapping table whose trigger keyword occurs
case-insensitively in the text (the category argument is ignored), in
table insertion order, and the empty list when nothing matches. -/
theorem get_law_suggestions_eq_table (complaint_text category : List Char) :
    get_law_suggestions complaint_text category
      = suggestSpecTextOnly complaint_text := by
  unfold get_law_suggestions suggestSpecTextOnly lawTable
  dsimp only
  rw [List.filterMap_cons, List.filterMap_cons, List.filterMap_cons,
    List.filterMap_cons, List.filterMap_cons, List.filterMap_nil]
  split_ifs <;> rfl

/- ===================== Relational store model ===================== -/

/-- Complaint status, per the `CHECK` constraint on `Complaints.status`,
`Cases.case_status` and `CaseUpdates.status`. -/
inductive Status where
  | Pending | UnderInvestigation | Resolved | Closed
deriving DecidableEq, Repr

/-- Severity tier, per the `CHECK` constraint on
`Complaints.severity_level`. -/
inductive Severity where
  | Low | Medium | High
deriving DecidableEq, Repr

/-- User role, per the `CHECK` constraint on `Users.role`. -/
inductive Role where
  | citizen | police
deriving DecidableEq, Repr

/-- A row of the `Users` table. -/
structure User where
  user_id : Nat
  name : List Char
  role : Role
  email : List Char
  phone : List Char
  district : Option (List Char)
  badge_number : Option (List Char)
  department : Option (List Char)
  password_hash : List Char
deriving DecidableEq, Repr

/-- A row of the `Complaints` table.  `date_filed` is the server-assigned
filing timestamp; `incident_date` a day number; `latitude`, `longitude`
and `severity_score` are stored `REAL` values never computed with. -/
structure Complaint where
  complaint_id : Nat
  reference_number : List Char
  user_id : Option Nat
  citizen_name : List Char
  citizen_email : List Char
  citizen_phone : List Char
  crime_type : List Char
  description : List Char
  location : List Char
  latitude : Option Rat
  longitude : Option Rat
  incident_date : Nat
  severity_level : Severity
  severity_score : Option Rat
  status : Status
  date_filed : Nat
  assigned_officer_id : Option Nat
deriving DecidableEq, Repr

/-- A row of the `Cases` table. -/
structure Case where
  case_id : Nat
  complaint_id : Nat
  police_officer_id : Option Nat
  case_status : Status
  pdf_path : Option (List Char)
  date_registered : Nat
deriving DecidableEq, Repr

/-- A row of the `CaseUpdates` table. -/
structure CaseUpdate where
  update_id : Nat
  case_id : Nat
  officer_badge : List Char
  status : Status
  notes : List Char
  update_date : Nat
deriving DecidableEq, Repr

/-- The relational store: the tables touched by the operations under
verification, with the next `AUTOINCREMENT` ids for `Cases` and
`CaseUpdates`. -/
structure DB where
  users : List User
  complaints : List Complaint
  cases : List Case
  caseUpdates : List CaseUpdate
  nextCaseId : Nat
  nextUpdateId : Nat
deriving DecidableEq, Repr

/-- The `DATE()` projection of a timestamp: the day it falls in. -/
def dateOfTs (ts : Nat) : Nat := ts / 86400

/-- Serialization of a status as stored in the `status` column. -/
def statusToStr : Status → List Char
  | .Pending => "Pending".data
  | .UnderInvestigation => "Under Investigation".data
  | .Resolved => "Resolved".data
  | .Closed => "Closed".data

/-- Serialization of a severity tier as stored in `severity_level`. -/
def severityToStr : Severity → List Char
  | .Low => "Low".data
  | .Medium => "Medium".data
  | .High => "High".data

/-- Embedding of `get_user_by_badge`: first `Users` row whose
`badge_number` equals the given badge (a `NULL` badge never matches). -/
def get_user_by_badge (db : DB) (badge : List Char) : Option User :=
  db.users.find? fun u => u.badge_number == some badge

/- ===================== Search & aggregation engine ===================== -/

/-- The filter arguments shared by `search_complaints_advanced` and
`count_complaints_advanced`.  String filters default to `""` (empty =
absent, as in Python truthiness); `start_date`/`end_date` are optional
dates; `citizen_email` defaults to `None`. -/
structure SearchFilters where
  search_query : List Char
  severity_filter : List Char
  location_filter : List Char
  start_date : Option Nat
  end_date : Option Nat
  status_filter : List Char
  crime_type_filter : List Char
  citizen_email : Option (List Char)
deriving DecidableEq, Repr

/-- Python truthiness of the optional `citizen_email` argument: neither
`None` nor the empty string. -/
def emailTruthy : Option (List Char) → Bool
  | none => false
  | some e => e ≠ []

/-- The `WHERE` clause built by `search_complaints_advanced`, as a
predicate on a `Complaints` row (each conjunct is added only when its
filter is truthy and, for the dropdown filters, not `'All'`). -/
def searchWhere (f : SearchFilters) (c : Complaint) : Bool :=
  (f.search_query == []
    || (likeContains c.reference_number f.search_query
        || likeContains c.crime_type f.search_query
        || likeContains c.location f.search_query
        || likeContains c.description f.search_query
        || likeContains c.citizen_name f.search_query))
  && (f.severity_filter == [] || f.severity_filter == "All".data
    || severityToStr c.severity_level == f.severity_filter)
  && (f.location_filter == []
    || likeContains c.location f.location_filter)
  && (match f.start_date with
      | none => true
      | some d => d ≤ dateOfTs c.date_filed)
  && (match f.end_date with
      | none => true
      | some d => dateOfTs c.date_filed ≤ d)
  && (f.status_filter == [] || f.status_filter == "All".data
    || statusToStr c.status == f.status_filter)
  && (f.crime_type_filter == [] || f.crime_type_filter == "All".data
    || c.crime_type == f.crime_type_filter)
  && (!emailTruthy f.citizen_email
    || c.citizen_email == f.citizen_email.getD [])

/-- The `WHERE` clause built by `count_complaints_advanced`; the source
duplicates the clause construction of the search verbatim. -/
def countWhere (f : SearchFilters) (c : Complaint) : Bool :=
  (f.search_query == []
    || (likeContains c.reference_number f.search_query
        || likeContains c.crime_type f.search_query
        || likeContains c.location f.search_query
        || likeContains c.description f.search_query
        || likeContains c.citizen_name f.search_query))
  && (f.severity_filter == [] || f.severity_filter == "All".data
    || severityToStr c.severity_level == f.severity_filter)
  && (f.location_filter == []
    || likeContains c.location f.location_filter)
  && (match f.start_date with
      | none => true
      | some d => d ≤ dateOfTs c.date_filed)
  && (match f.end_date with
      | none => true
      | some d => dateOfTs c.date_filed ≤ d)
  && (f.status_filter == [] || f.status_filter == "All".data
    || statusToStr c.status == f.status_filter)
  && (f.crime_type_filter == [] || f.crime_type_filter == "All".data
    || c.crime_type == f.crime_type_filter)
  && (!emailTruthy f.citizen_email
    || c.citizen_email == f.citizen_email.getD [])

/-- A row of the search result set: the complaint together with the
`assigned_officer` name produced by
`LEFT JOIN Users u ON c.assigned_officer_id = u.user_id`
(`user_id` is the primary key of `Users`, so the join matches each
complaint with at most one user). -/
structure SearchRow where
  cpl : Complaint
  assigned_officer : Option (List Char)
deriving DecidableEq, Repr

/-- The left join decorating a complaint with its assigned officer name. -/
def joinOfficer (users : List User) (c : Complaint) : SearchRow :=
  { cpl := c
    assigned_officer :=
      (users.find? fun u => some u.user_id == c.assigned_officer_id).map (·.name) }

/-- Ordering used by `ORDER BY date_filed DESC` on the search results. -/
def dateDesc (a b : SearchRow) : Prop :=
  b.cpl.date_filed ≤ a.cpl.date_filed

instance : DecidableRel dateDesc := fun _ _ => Nat.decLe _ _

instance : IsTotal SearchRow dateDesc := ⟨fun _ _ => Nat.le_total _ _⟩

instance : IsTrans SearchRow dateDesc := ⟨fun _ _ _ hab hbc => Nat.le_trans hbc hab⟩

/-- `LIMIT ? OFFSET ?` with Python truthiness on both arguments: the
`LIMIT` clause is added only when `limit` is truthy (non-`None` and
non-zero), and only then is an `OFFSET` clause added when `offset` is
truthy. -/
def paginate (limit offset : Option Nat) (rows : List α) : List α :=
  match limit with
  | none => rows
  | some l =>
    if l = 0 then rows
    else
      match offset with
      | none => rows.take l
      | some o => if o = 0 then rows.take l else (rows.drop o).take l

/-- Embedding of `search_complaints_advanced`: left-join with `Users`,
apply the `WHERE` predicate, `ORDER BY date_filed DESC`, then paginate. -/
def search_complaints_advanced (db : DB) (f : SearchFilters)
    (limit offset : Option Nat) : List SearchRow :=
  let joined := db.complaints.map (joinOfficer db.users)
  let filtered := joined.filter fun r => searchWhere f r.cpl
  let sorted := List.insertionSort dateDesc filtered
  paginate limit offset sorted

/-- Embedding of `count_complaints_advanced`: `SELECT COUNT(*)` over
`Complaints` under the same `WHERE` clause (no join, no pagination). -/
def count_complaints_advanced (db : DB) (f : SearchFilters) : Nat :=
  (db.complaints.filter (countWhere f)).length

/-- The triage rank of `ORDER BY CASE severity_level WHEN 'High' THEN 1
WHEN 'Medium' THEN 2 WHEN 'Low' THEN 3 END`. -/
def sevRank : Severity → Nat
  | .High => 1
  | .Medium => 2
  | .Low => 3

/-- Ordering of the pending triage queue: severity rank, then
`date_filed ASC`. -/
def triageLe (a b : Complaint) : Prop :=
  sevRank a.severity_level < sevRank b.severity_level
    ∨ (sevRank a.severity_level = sevRank b.severity_level
        ∧ a.date_filed ≤ b.date_filed)

instance : DecidableRel triageLe := fun _ _ =>
  inferInstanceAs (Decidable (_ ∨ _))

instance : IsTotal Complaint triageLe :=
  ⟨fun a b => by unfold triageLe; omega⟩

instance : IsTrans Complaint triageLe :=
  ⟨fun a b c hab hbc => by
    unfold triageLe at hab hbc ⊢; omega⟩

/-- Embedding of `get_pending_complaints`: complaints with status
`Pending`, ordered by severity tier then filing timestamp ascending. -/
def get_pending_complaints (db : DB) : List Complaint :=
  List.insertionSort triageLe
    (db.complaints.filter fun c => c.status == Status.Pending)

/-- C3: for every store and every filter combination, the count operation
returns exactly the length of the unlimited search result — the two
operations apply an identical predicate. -/
theorem count_eq_search_length (db : DB) (f : SearchFilters) (offset : Option Nat) :
    count_complaints_advanced db f
      = (search_complaints_advanced db f none offset).length := by
  unfold count_complaints_advanced search_complaints_advanced paginate
  dsimp only
  rw [(List.perm_insertionSort dateDesc _).length_eq]
  have hpred : ∀ c : Complaint, countWhere f c = searchWhere f c := fun c => rfl
  have hjoin : ∀ c : Complaint, (joinOfficer db.users c).cpl = c := fun c => rfl
  induction db.complaints with
  | nil => rfl
  | cons c t ih =>
    by_cases h : searchWhere f c
    · simp [List.filter_cons, hpred, hjoin, h, ih]
    · simp [List.filter_cons, hpred, hjoin, h, ih]

/-- C7: every search result list is ordered by filing timestamp
descending, and the pending queue contains exactly the `Pending`
complaints, ordered by severity tier High, Medium, Low and within a tier
by filing timestamp ascending. -/
theorem search_and_pending_ordering (db : DB) (f : SearchFilters)
    (limit offset : Option Nat) :
    (search_complaints_advanced db f limit offset).Pairwise
      (fun a b => b.cpl.date_filed ≤ a.cpl.date_filed)
    ∧ (∀ c ∈ get_pending_complaints db, c.status = Status.Pending)
    ∧ (get_pending_complaints db).Pairwise
      (fun a b => sevRank a.severity_level < sevRank b.severity_level
        ∨ (sevRank a.severity_level = sevRank b.severity_level
            ∧ a.date_filed ≤ b.date_filed)) := by
  refine ⟨?_, ?_, ?_⟩
  · have hs : (List.insertionSort dateDesc
        ((db.complaints.map (joinOfficer db.users)).filter
          fun r => searchWhere f r.cpl)).Pairwise dateDesc :=
      List.sorted_insertionSort dateDesc _
    unfold search_complaints_advanced paginate
    dsimp only
    match limit with
    | none => exact hs
    | some l =>
      dsimp only
      split_ifs
      · exact hs
      · match offset with
        | none => exact hs.sublist ((List.take_sublist _ _))
        | some o =>
          dsimp only
          split_ifs
          · exact hs.sublist ((List.take_sublist _ _))
          · exact hs.sublist
              ((List.take_sublist _ _).trans (List.drop_sublist _ _))
  · intro c hc
    unfold get_pending_complaints at hc
    have := (List.perm_insertionSort triageLe _).mem_iff.mp hc
    simpa using (List.mem_filter.mp this).2
  · exact List.sorted_insertionSort triageLe _

/-- C10: the `offset` parameter has an effect only when a truthy `limit`
is supplied — with `limit` absent or `0`, every offset yields the same
full, un-truncated result list as offset `0` or no offset at all. -/
theorem search_offset_needs_limit (db : DB) (f : SearchFilters)
    (offset : Option Nat) :
    search_complaints_advanced db f none offset
      = search_complaints_advanced db f none (some 0)
    ∧ search_complaints_advanced db f (some 0) offset
      = search_complaints_advanced db f none (some 0)
    ∧ search_complaints_advanced db f none offset
      = search_complaints_advanced db f none none := by
  exact ⟨rfl, rfl, rfl⟩

/- ===================== Status transition engine ===================== -/

/-- Embedding of `update_complaint_status(complaint_id, new_status,
officer_badge, notes)`.  The source performs, in one transaction: an
unconditional `UPDATE Complaints SET status = ?` (no existence check and
no transition-graph check), then fetches or creates the `Cases` row for
the complaint (resolving the officer's badge to a `user_id`, updating the
existing case's status and officer when there is one), and finally
inserts one `CaseUpdates` row.  `now` is the server timestamp
(`CURRENT_TIMESTAMP`). -/
def update_complaint_status (db : DB) (complaint_id : Nat) (new_status : Status)
    (officer_badge notes : List Char) (now : Nat) : DB :=
  let complaints := db.complaints.map fun c =>
    if c.complaint_id = complaint_id then { c with status := new_status } else c
  let officer_id := (get_user_by_badge db officer_badge).map (·.user_id)
  match db.cases.find? fun cs => cs.complaint_id == complaint_id with
  | none =>
    { db with
      complaints
      cases := db.cases ++
        [{ case_id := db.nextCaseId, complaint_id, police_officer_id := officer_id,
           case_status := new_status, pdf_path := none, date_registered := now }]
      nextCaseId := db.nextCaseId + 1
      caseUpdates := db.caseUpdates ++
        [{ update_id := db.nextUpdateId, case_id := db.nextCaseId,
           officer_badge, status := new_status, notes, update_date := now }]
      nextUpdateId := db.nextUpdateId + 1 }
  | some cs =>
    { db with
      complaints
      cases := db.cases.map fun x =>
        if x.case_id = cs.case_id
        then { x with case_status := new_status, police_officer_id := officer_id }
        else x
      caseUpdates := db.caseUpdates ++
        [{ update_id := db.nextUpdateId, case_id := cs.case_id,
           officer_badge, status := new_status, notes, update_date := now }]
      nextUpdateId := db.nextUpdateId + 1 }

/-- Embedding of `mark_complaint_registered`: sets the complaint's status
to `Under Investigation`. -/
def mark_complaint_registered (db : DB) (complaint_id : Nat) : DB :=
  { db with
    complaints := db.complaints.map fun c =>
      if c.complaint_id = complaint_id
      then { c with status := Status.UnderInvestigation } else c }

/-- Embedding of `register_case(complaint_id, police_officer_id,
pdf_path)`: inserts a `Cases` row with status `Under Investigation` and
then calls `mark_complaint_registered`.  No `CaseUpdates` row is
written. -/
def register_case (db : DB) (complaint_id police_officer_id : Nat)
    (pdf_path : List Char) (now : Nat) : DB :=
  let db1 :=
    { db with
      cases := db.cases ++
        [{ case_id := db.nextCaseId, complaint_id,
           police_officer_id := some police_officer_id,
           case_status := Status.UnderInvestigation,
           pdf_path := some pdf_path, date_registered := now }]
      nextCaseId := db.nextCaseId + 1 }
  mark_complaint_registered db1 complaint_id

/-- The complaint status update is applied to every `Complaints` row with
the given id, in both branches of the case lookup. -/
theorem update_status_complaints_eq (db : DB) (cid : Nat) (s : Status)
    (badge notes : List Char) (now : Nat) :
    (update_complaint_status db cid s badge notes now).complaints
      = db.complaints.map fun c =>
          if c.complaint_id = cid then { c with status := s } else c := by
  unfold update_complaint_status
  dsimp only
  split <;> rfl

/-- Effect of `update_complaint_status` on `Cases` and `CaseUpdates` when
no case exists yet for the complaint. -/
theorem update_status_effects_of_no_case (db : DB) (cid : Nat) (s : Status)
    (badge notes : List Char) (now : Nat)
    (hnone : db.cases.find? (fun cs => cs.complaint_id == cid) = none) :
    (update_complaint_status db cid s badge notes now).cases
      = db.cases ++
        [{ case_id := db.nextCaseId, complaint_id := cid,
           police_officer_id := (get_user_by_badge db badge).map (·.user_id),
           case_status := s, pdf_path := none, date_registered := now }]
    ∧ (update_complaint_status db cid s badge notes now).caseUpdates
      = db.caseUpdates ++
        [{ update_id := db.nextUpdateId, case_id := db.nextCaseId,
           officer_badge := badge, status := s, notes := notes,
           update_date := now }] := by
  unfold update_complaint_status
  dsimp only
  rw [hnone]
  exact ⟨rfl, rfl⟩

/-- Effect of `update_complaint_status` on `CaseUpdates` when a case
already exists for the complaint. -/
theorem update_status_effects_of_case (db : DB) (cid : Nat) (s : Status)
    (badge notes : List Char) (now : Nat) (cs : Case)
    (hsome : db.cases.find? (fun x => x.complaint_id == cid) = some cs) :
    (update_complaint_status db cid s badge notes now).caseUpdates
      = db.caseUpdates ++
        [{ update_id := db.nextUpdateId, case_id := cs.case_id,
           officer_badge := badge, status := s, notes := notes,
           update_date := now }] := by
  unfold update_complaint_status
  dsimp only
  rw [hsome]

/-- A member of the status-updated complaint list carrying the updated id
has the new status. -/
theorem mem_map_setStatus {l : List Complaint} {cid : Nat} {s : Status}
    {c : Complaint}
    (hc : c ∈ l.map fun x =>
      if x.complaint_id = cid then { x with status := s } else x)
    (hid : c.complaint_id = cid) : c.status = s := by
  obtain ⟨a, _, hmap⟩ := List.mem_map.mp hc
  by_cases h : a.complaint_id = cid
  · rw [if_pos h] at hmap
    subst hmap
    rfl
  · rw [if_neg h] at hmap
    subst hmap
    exact absurd hid h

/- Concrete fixtures used by counterexamples and witnesses. -/

/-- The seeded default officer of `init_db` (badge `KP001`). -/
def exOfficer : User :=
  { user_id := 1, name := "Officer Kumar".data, role := Role.police,
    email := "officer@kerala.police.gov.in".data, phone := "9876543210".data,
    district := some "Thiruvananthapuram".data, badge_number := some "KP001".data,
    department := some "Crime Branch".data,
    password_hash := "ef92b778".data }

/-- A sample complaint row with the given status. -/
def exComplaint (st : Status) : Complaint :=
  { complaint_id := 1, reference_number := "CR20250923AB12".data,
    user_id := none, citizen_name := "A Citizen".data,
    citizen_email := "a@example.com".data, citizen_phone := "1234567890".data,
    crime_type := "Theft".data, description := "phone stolen".data,
    location := "Town".data, latitude := none, longitude := none,
    incident_date := 20000, severity_level := Severity.Medium,
    severity_score := none, status := st, date_filed := 100,
    assigned_officer_id := none }

/-- A store holding one complaint with the given status and no cases. -/
def exDb (st : Status) : DB :=
  { users := [exOfficer], complaints := [exComplaint st], cases := [],
    caseUpdates := [], nextCaseId := 1, nextUpdateId := 1 }

/-- A store holding no complaints at all. -/
def exDbEmpty : DB :=
  { users := [exOfficer], complaints := [], cases := [], caseUpdates := [],
    nextCaseId := 1, nextUpdateId := 1 }

/-- C1 counterexample: on a complaint whose status is `Resolved`, the
backward transition to `Pending` does not fail — `update_complaint_status`
sets the status to `Pending` (and writes a Case and a CaseUpdate), so the
status does not remain `Resolved`. -/
theorem update_status_backward_transition_succeeds :
    ((update_complaint_status (exDb Status.Resolved) 1 Status.Pending
        "KP001".data "x".data 200).complaints.map (·.status) = [Status.Pending])
    ∧ Status.Pending ≠ Status.Resolved
    ∧ ((exDb Status.Resolved).complaints.map (·.status) = [Status.Resolved])
    ∧ ((update_complaint_status (exDb Status.Resolved) 1 Status.Pending
        "KP001".data "x".data 200).caseUpdates.length = 1) := by
  refine ⟨by decide, by decide, by decide, by decide⟩

/-- C1 amended: `update_complaint_status` performs no transition-graph
check at all — for every store, complaint id and requested status
(including statuses not reachable in the graph), the operation succeeds
and every complaint with that id ends with the requested status. -/
theorem update_status_unchecked (db : DB) (cid : Nat) (s : Status)
    (badge notes : List Char) (now : Nat) (c : Complaint)
    (hc : c ∈ (update_complaint_status db cid s badge notes now).complaints)
    (hid : c.complaint_id = cid) : c.status = s := by
  rw [update_status_complaints_eq] at hc
  exact mem_map_setStatus hc hid

/-- C1 amended, witness: instantiating the amended theorem on the concrete
`Resolved` store at the updated row. -/
theorem update_status_unchecked_witness :
    ({ exComplaint Status.Resolved with status := Status.Pending } : Complaint).status
      = Status.Pending :=
  update_status_unchecked (exDb Status.Resolved) 1 Status.Pending
    "KP001".data "x".data 200 _ (by decide) (by decide)

/-- C4 counterexample: on a store with no complaints at all,
`update_complaint_status` for the nonexistent id `99` does not fail — it
leaves `Complaints` empty and creates a `Cases` row for complaint `99`
and one `CaseUpdates` row (SQLite foreign keys are not enabled by the
source, so the orphan inserts succeed). -/
theorem update_status_nonexistent_creates_rows :
    ((update_complaint_status exDbEmpty 99 Status.UnderInvestigation
        "KP001".data "x".data 200).complaints = [])
    ∧ ((update_complaint_status exDbEmpty 99 Status.UnderInvestigation
        "KP001".data "x".data 200).cases.map (·.complaint_id) = [99])
    ∧ ((update_complaint_status exDbEmpty 99 Status.UnderInvestigation
        "KP001".data "x".data 200).caseUpdates.length = 1) := by
  refine ⟨by decide, by decide, by decide⟩

/-- C4 amended: for every complaint id that does not exist in the store,
`update_complaint_status` does not fail: it leaves the `Complaints` table
unchanged, appends exactly one `CaseUpdates` row, and — when no case row
carries that id — creates an orphan `Cases` row for the nonexistent
complaint. -/
theorem update_status_nonexistent_no_error (db : DB) (cid : Nat) (s : Status)
    (badge notes : List Char) (now : Nat)
    (habs : db.complaints.all (fun c => !(c.complaint_id == cid)) = true) :
    (update_complaint_status db cid s badge notes now).complaints = db.complaints
    ∧ (db.cases.find? (fun cs => cs.complaint_id == cid) = none →
        ∃ cs, (update_complaint_status db cid s badge notes now).cases
            = db.cases ++ [cs] ∧ cs.complaint_id = cid)
    ∧ ∃ cu, (update_complaint_status db cid s badge notes now).caseUpdates
          = db.caseUpdates ++ [cu] := by
  refine ⟨?_, ?_, ?_⟩
  · rw [update_status_complaints_eq]
    have h : ∀ c ∈ db.complaints,
        (if c.complaint_id = cid then { c with status := s } else c) = c := by
      intro c hc
      rw [if_neg]
      have := List.all_eq_true.mp habs c hc
      simpa using this
    calc db.complaints.map _ = db.complaints.map id := List.map_congr_left h
      _ = db.complaints := List.map_id db.complaints
  · intro hnone
    exact ⟨_, (update_status_effects_of_no_case db cid s badge notes now hnone).1, rfl⟩
  · cases hfind : db.cases.find? fun x => x.complaint_id == cid with
    | none =>
      exact ⟨_, (update_status_effects_of_no_case db cid s badge notes now hfind).2⟩
    | some cs =>
      exact ⟨_, update_status_effects_of_case db cid s badge notes now cs hfind⟩

/-- C4 amended, witness: the amended theorem instantiated on the empty
store at id `99`. -/
theorem update_status_nonexistent_no_error_witness :
    (update_complaint_status exDbEmpty 99 Status.UnderInvestigation
        "KP001".data "x".data 200).complaints = exDbEmpty.complaints
    ∧ (exDbEmpty.cases.find? (fun cs => cs.complaint_id == 99) = none →
        ∃ cs, (update_complaint_status exDbEmpty 99 Status.UnderInvestigation
            "KP001".data "x".data 200).cases
            = exDbEmpty.cases ++ [cs] ∧ cs.complaint_id = 99)
    ∧ ∃ cu, (update_complaint_status exDbEmpty 99 Status.UnderInvestigation
          "KP001".data "x".data 200).caseUpdates
          = exDbEmpty.caseUpdates ++ [cu] :=
  update_status_nonexistent_no_error exDbEmpty 99 Status.UnderInvestigation
    "KP001".data "x".data 200 (by decide)

/-- C5 counterexample: `register_case` on an existing `Pending` complaint
creates the case and transitions the complaint, but appends no
`CaseUpdates` row — the audit entry claimed by the spec is missing. -/
theorem register_case_writes_no_caseupdate :
    ((register_case (exDb Status.Pending) 1 1 "report.pdf".data 200).caseUpdates = [])
    ∧ ((register_case (exDb Status.Pending) 1 1 "report.pdf".data 200).cases.length = 1)
    ∧ ((register_case (exDb Status.Pending) 1 1 "report.pdf".data
        200).complaints.map (·.status) = [Status.UnderInvestigation]) := by
  refine ⟨by decide, by decide, by decide⟩

/-- C5 amended: for every existing complaint, `register_case` creates a
`Cases` row owned by that complaint with the given officer and report
artifact reference and status `Under Investigation`, sets the complaint's
status to `Under Investigation` as a side effect, and appends no
`CaseUpdates` row. -/
theorem register_case_behavior (db : DB) (cid oid : Nat) (pdf : List Char)
    (now : Nat)
    (_hex : db.complaints.any (fun c => c.complaint_id == cid) = true) :
    (register_case db cid oid pdf now).cases
      = db.cases ++
        [{ case_id := db.nextCaseId, complaint_id := cid,
           police_officer_id := some oid,
           case_status := Status.UnderInvestigation,
           pdf_path := some pdf, date_registered := now }]
    ∧ (∀ c ∈ (register_case db cid oid pdf now).complaints,
        c.complaint_id = cid → c.status = Status.UnderInvestigation)
    ∧ (register_case db cid oid pdf now).caseUpdates = db.caseUpdates := by
  refine ⟨rfl, ?_, rfl⟩
  intro c hc hid
  unfold register_case mark_complaint_registered at hc
  dsimp only at hc
  exact mem_map_setStatus hc hid

/-- C5 amended, witness: the amended theorem instantiated on the concrete
`Pending` store. -/
theorem register_case_behavior_witness :
    (register_case (exDb Status.Pending) 1 1 "report.pdf".data 200).cases
      = (exDb Status.Pending).cases ++
        [{ case_id := (exDb Status.Pending).nextCaseId, complaint_id := 1,
           police_officer_id := some 1,
           case_status := Status.UnderInvestigation,
           pdf_path := some "report.pdf".data, date_registered := 200 }]
    ∧ (∀ c ∈ (register_case (exDb Status.Pending) 1 1 "report.pdf".data
          200).complaints,
        c.complaint_id = 1 → c.status = Status.UnderInvestigation)
    ∧ (register_case (exDb Status.Pending) 1 1 "report.pdf".data
        200).caseUpdates = (exDb Status.Pending).caseUpdates :=
  register_case_behavior (exDb Status.Pending) 1 1 "report.pdf".data 200
    (by decide)

/-- C2: for every existing complaint and every call of
`update_complaint_status` (all of which succeed), the complaint's status
is set to the requested status; when no `Cases` row existed for the
complaint, one is created registered to the acting officer (the badge's
`user_id`); and exactly one `CaseUpdates` row is appended, recording the
new status, badge, notes and server timestamp — in both branches, so also
when the case already existed. -/
theorem update_status_success (db : DB) (cid : Nat) (s : Status)
    (badge notes : List Char) (now : Nat) (u : User)
    (_hex : db.complaints.any (fun c => c.complaint_id == cid) = true)
    (hu : get_user_by_badge db badge = some u) :
    (∀ c ∈ (update_complaint_status db cid s badge notes now).complaints,
        c.complaint_id = cid → c.status = s)
    ∧ (db.cases.find? (fun cs => cs.complaint_id == cid) = none →
        ∃ cs, (update_complaint_status db cid s badge notes now).cases
            = db.cases ++ [cs]
          ∧ cs.complaint_id = cid
          ∧ cs.police_officer_id = some u.user_id)
    ∧ ∃ cu, (update_complaint_status db cid s badge notes now).caseUpdates
          = db.caseUpdates ++ [cu]
        ∧ cu.status = s ∧ cu.officer_badge = badge ∧ cu.notes = notes
        ∧ cu.update_date = now := by
  refine ⟨?_, ?_, ?_⟩
  · intro c hc hid
    rw [update_status_complaints_eq] at hc
    exact mem_map_setStatus hc hid
  · intro hnone
    refine ⟨_, (update_status_effects_of_no_case db cid s badge notes now hnone).1,
      rfl, ?_⟩
    rw [hu]
    rfl
  · cases hfind : db.cases.find? fun x => x.complaint_id == cid with
    | none =>
      exact ⟨_, (update_status_effects_of_no_case db cid s badge notes now hfind).2,
        rfl, rfl, rfl, rfl⟩
    | some cs =>
      exact ⟨_, update_status_effects_of_case db cid s badge notes now cs hfind,
        rfl, rfl, rfl, rfl⟩

/-- C2 witness: the success theorem instantiated on the concrete `Pending`
store, transitioning to `Under Investigation` with officer `KP001`. -/
theorem update_status_success_witness :
    (∀ c ∈ (update_complaint_status (exDb Status.Pending) 1
        Status.UnderInvestigation "KP001".data "started".data 200).complaints,
        c.complaint_id = 1 → c.status = Status.UnderInvestigation)
    ∧ ((exDb Status.Pending).cases.find? (fun cs => cs.complaint_id == 1) = none →
        ∃ cs, (update_complaint_status (exDb Status.Pending) 1
            Status.UnderInvestigation "KP001".data "started".data 200).cases
            = (exDb Status.Pending).cases ++ [cs]
          ∧ cs.complaint_id = 1
          ∧ cs.police_officer_id = some exOfficer.user_id)
    ∧ ∃ cu, (update_complaint_status (exDb Status.Pending) 1
          Status.UnderInvestigation "KP001".data "started".data 200).caseUpdates
          = (exDb Status.Pending).caseUpdates ++ [cu]
        ∧ cu.status = Status.UnderInvestigation
        ∧ cu.officer_badge = "KP001".data ∧ cu.notes = "started".data
        ∧ cu.update_date = 200 :=
  update_status_success (exDb Status.Pending) 1 Status.UnderInvestigation
    "KP001".data "started".data 200 exOfficer (by decide) (by decide)

/- ============== Analytics: resolution-time rollup (C8) ============== -/

/-- The joined and filtered row set of the resolution-time query of
`display_performance_metrics`:
`Complaints JOIN Cases ON complaint_id JOIN CaseUpdates ON case_id`
restricted to resolved complaints filed in the date range whose update has
status `Resolved`. -/
def resolutionRows (db : DB) (startD endD : Nat) :
    List (Complaint × Case × CaseUpdate) :=
  ((db.complaints.flatMap fun c =>
      (db.cases.filter fun cs => cs.complaint_id == c.complaint_id).flatMap fun cs =>
        (db.caseUpdates.filter fun cu => cu.case_id == cs.case_id).map fun cu =>
          (c, cs, cu)).filter fun r =>
    r.1.status == Status.Resolved
    && (startD ≤ dateOfTs r.1.date_filed && dateOfTs r.1.date_filed ≤ endD)
    && r.2.2.status == Status.Resolved)

/-- `MAX` aggregation over a list of timestamps. -/
def listMax (l : List Nat) : Nat := l.foldr max 0

/-- Embedding of the resolution-time query: `GROUP BY c.complaint_id` over
`resolutionRows`, producing per complaint id the value
`julianday(MAX(cu.update_date)) - julianday(c.date_filed)` (timestamps are
modelled directly, so the difference is integer subtraction). -/
def resolutionData (db : DB) (startD endD : Nat) : List (Nat × Int) :=
  let rows := resolutionRows db startD endD
  ((rows.map fun r => r.1.complaint_id).dedup).map fun k =>
    let grp := rows.filter fun r => r.1.complaint_id == k
    (k, (listMax (grp.map fun r => r.2.2.update_date) : Int)
        - (((grp.head?.map fun r => r.1.date_filed).getD 0 : Nat) : Int))

/-- The timestamps of the `CaseUpdates` with status `Resolved` belonging
to a complaint (through its `Cases` rows) — the claim's candidate set of
resolution events. -/
def resolvedUpdateTimes (db : DB) (c : Complaint) : List Nat :=
  ((db.cases.filter fun cs => cs.complaint_id == c.complaint_id).flatMap fun cs =>
    db.caseUpdates.filter fun cu =>
      cu.case_id == cs.case_id && cu.status == Status.Resolved).map
    (·.update_date)

/-- Membership in the joined row set, componentwise. -/
theorem mem_resolutionRows (db : DB) (s e : Nat) (c : Complaint) (cs : Case)
    (cu : CaseUpdate) :
    (c, cs, cu) ∈ resolutionRows db s e ↔
      c ∈ db.complaints ∧ cs ∈ db.cases ∧ cu ∈ db.caseUpdates
      ∧ cs.complaint_id = c.complaint_id ∧ cu.case_id = cs.case_id
      ∧ c.status = Status.Resolved
      ∧ s ≤ dateOfTs c.date_filed ∧ dateOfTs c.date_filed ≤ e
      ∧ cu.status = Status.Resolved := by
  unfold resolutionRows
  simp only [List.mem_filter, List.mem_flatMap, List.mem_map, Prod.mk.injEq,
    Bool.and_eq_true, beq_iff_eq, decide_eq_true_eq]
  aesop

/-- Membership in the claim's candidate resolution-event set,
componentwise. -/
theorem mem_resolvedUpdateTimes (db : DB) (c : Complaint) (t : Nat) :
    t ∈ resolvedUpdateTimes db c ↔
      ∃ cs ∈ db.cases, cs.complaint_id = c.complaint_id
        ∧ ∃ cu ∈ db.caseUpdates, cu.case_id = cs.case_id
          ∧ cu.status = Status.Resolved ∧ cu.update_date = t := by
  unfold resolvedUpdateTimes
  simp only [List.mem_map, List.mem_flatMap, List.mem_filter,
    Bool.and_eq_true, beq_iff_eq, decide_eq_true_eq]
  aesop

/-- Every element of a nonempty list is bounded by `listMax`. -/
theorem le_listMax {l : List Nat} {t : Nat} (h : t ∈ l) : t ≤ listMax l := by
  induction l with
  | nil => cases h
  | cons a tl ih =>
    rcases List.mem_cons.mp h with rfl | h'
    · exact le_max_left _ _
    · exact le_trans (ih h') (le_max_right _ _)

/-- `listMax` of a nonempty list is attained. -/
theorem listMax_mem {l : List Nat} (h : l ≠ []) : listMax l ∈ l := by
  induction l with
  | nil => exact absurd rfl h
  | cons a tl ih =>
    by_cases h' : tl = []
    · subst h'
      simp [listMax]
    · rcases le_total a (listMax tl) with hle | hle
      · have : listMax (a :: tl) = listMax tl := max_eq_right hle
        rw [this]
        exact List.mem_cons_of_mem a (ih h')
      · have : listMax (a :: tl) = a := max_eq_left hle
        rw [this]
        exact List.mem_cons_self a tl

/-- Under unique complaint ids, a joined row keyed like `c` carries `c`
itself as its complaint component. -/
theorem resolutionRows_fst_eq (db : DB) (s e : Nat)
    (hids : (db.complaints.map (·.complaint_id)).Nodup)
    {c : Complaint} (hc : c ∈ db.complaints)
    {r : Complaint × Case × CaseUpdate} (hr : r ∈ resolutionRows db s e)
    (hk : r.1.complaint_id = c.complaint_id) : r.1 = c := by
  obtain ⟨c', cs, cu⟩ := r
  have h := (mem_resolutionRows db s e c' cs cu).mp hr
  exact List.inj_on_of_nodup_map hids h.1 hc hk

/-- Under unique complaint ids, the update timestamps of the group of a
qualifying complaint are exactly its resolved-update timestamps. -/
theorem grp_times_iff (db : DB) (s e : Nat)
    (hids : (db.complaints.map (·.complaint_id)).Nodup)
    {c : Complaint} (hc : c ∈ db.complaints)
    (hqual : c.status = Status.Resolved ∧ s ≤ dateOfTs c.date_filed
      ∧ dateOfTs c.date_filed ≤ e) (t : Nat) :
    t ∈ ((resolutionRows db s e).filter
          fun r => r.1.complaint_id == c.complaint_id).map
        (fun r => r.2.2.update_date)
      ↔ t ∈ resolvedUpdateTimes db c := by
  rw [mem_resolvedUpdateTimes]
  constructor
  · intro ht
    obtain ⟨r, hr, rfl⟩ := List.mem_map.mp ht
    obtain ⟨hrow, hkey⟩ := List.mem_filter.mp hr
    have hkey' : r.1.complaint_id = c.complaint_id := by simpa using hkey
    have hfst : r.1 = c := resolutionRows_fst_eq db s e hids hc hrow hkey'
    obtain ⟨c', cs, cu⟩ := r
    cases hfst
    obtain ⟨_, h2, h3, h4, h5, _, _, _, h9⟩ :=
      (mem_resolutionRows db s e c' cs cu).mp hrow
    exact ⟨cs, h2, h4, cu, h3, h5, h9, rfl⟩
  · rintro ⟨cs, hcs, h1, cu, hcu, h2, h3, rfl⟩
    refine List.mem_map.mpr ⟨(c, cs, cu), List.mem_filter.mpr ⟨?_, by simp⟩, rfl⟩
    exact (mem_resolutionRows db s e c cs cu).mpr
      ⟨hc, hcs, hcu, h1, h2, hqual.1, hqual.2.1, hqual.2.2, h3⟩

/-- The `c.date_filed` picked for a group whose rows all carry `c`. -/
theorem grp_head_filed {grp : List (Complaint × Case × CaseUpdate)}
    {c : Complaint} (hne : grp ≠ []) (hall : ∀ r ∈ grp, r.1 = c) :
    ((grp.head?.map fun r => r.1.date_filed).getD 0) = c.date_filed := by
  rw [List.head?_eq_head hne]
  have := hall _ (List.head_mem hne)
  simp [this]

/-- Projecting the keys back out of a key-indexed map of pairs. -/
theorem map_fst_map_pair {α β : Type} (l : List α) (f : α → β) :
    ((l.map fun k => (k, f k)).map Prod.fst) = l := by
  induction l with
  | nil => rfl
  | cons a t ih => simp [ih]

/-- C8: under unique complaint ids, the resolution-time rollup yields
exactly one value per resolved complaint (result keys are nodup), and a
pair `(k, v)` appears iff the store has a complaint with id `k`, status
`Resolved`, filed in the date range, with at least one `Resolved`
case-update, whose latest (maximum-timestamp) resolved update `tmax`
gives `v = tmax - date_filed`. -/
theorem resolution_time_uses_latest (db : DB) (startD endD : Nat)
    (hids : (db.complaints.map (·.complaint_id)).Nodup) :
    ((resolutionData db startD endD).map Prod.fst).Nodup
    ∧ ∀ k v, (k, v) ∈ resolutionData db startD endD ↔
        ∃ c ∈ db.complaints, c.complaint_id = k
          ∧ c.status = Status.Resolved
          ∧ startD ≤ dateOfTs c.date_filed ∧ dateOfTs c.date_filed ≤ endD
          ∧ ∃ tmax ∈ resolvedUpdateTimes db c,
              (∀ t ∈ resolvedUpdateTimes db c, t ≤ tmax)
              ∧ v = (tmax : Int) - (c.date_filed : Int) := by
  constructor
  · unfold resolutionData
    dsimp only
    rw [map_fst_map_pair]
    exact List.nodup_dedup _
  · intro k v
    unfold resolutionData
    dsimp only
    constructor
    · intro hkv
      obtain ⟨k', hk', hpair⟩ := List.mem_map.mp hkv
      have hk'eq : k' = k := congrArg Prod.fst hpair
      subst hk'eq
      have hv : (listMax
            (((resolutionRows db startD endD).filter
                fun r => r.1.complaint_id == k').map
              fun r => r.2.2.update_date) : Int)
          - (((((resolutionRows db startD endD).filter
                fun r => r.1.complaint_id == k').head?.map
              fun r => r.1.date_filed).getD 0 : Nat) : Int) = v :=
        congrArg Prod.snd hpair
      obtain ⟨r0, hr0, hr0k⟩ :=
        List.mem_map.mp (List.mem_dedup.mp hk')
      have hq := (mem_resolutionRows db startD endD r0.1 r0.2.1 r0.2.2).mp
        (by simpa using hr0)
      refine ⟨r0.1, hq.1, hr0k, hq.2.2.2.2.2.1, hq.2.2.2.2.2.2.1,
        hq.2.2.2.2.2.2.2.1, ?_⟩
      subst hr0k
      have hall : ∀ r ∈ (resolutionRows db startD endD).filter
          (fun r => r.1.complaint_id == r0.1.complaint_id), r.1 = r0.1 := by
        intro r hr
        obtain ⟨hrow, hkey⟩ := List.mem_filter.mp hr
        exact resolutionRows_fst_eq db startD endD hids hq.1 hrow (by simpa using hkey)
      have hr0grp : r0 ∈ (resolutionRows db startD endD).filter
          (fun r => r.1.complaint_id == r0.1.complaint_id) :=
        List.mem_filter.mpr ⟨hr0, by simp⟩
      have hgrpne : ((resolutionRows db startD endD).filter
          (fun r => r.1.complaint_id == r0.1.complaint_id)).map
            (fun r => r.2.2.update_date) ≠ [] := by
        have hm := List.mem_map_of_mem
          (fun (r : Complaint × Case × CaseUpdate) => r.2.2.update_date) hr0grp
        exact List.ne_nil_of_mem hm
      have htiff := grp_times_iff db startD endD hids hq.1
        ⟨hq.2.2.2.2.2.1, hq.2.2.2.2.2.2.1, hq.2.2.2.2.2.2.2.1⟩
      refine ⟨listMax (((resolutionRows db startD endD).filter
            (fun r => r.1.complaint_id == r0.1.complaint_id)).map
          (fun r => r.2.2.update_date)),
        (htiff _).mp (listMax_mem hgrpne), ?_, ?_⟩
      · intro t ht
        exact le_listMax ((htiff t).mpr ht)
      · rw [← hv]
        have hne : (resolutionRows db startD endD).filter
            (fun r => r.1.complaint_id == r0.1.complaint_id) ≠ [] :=
          List.ne_nil_of_mem hr0grp
        rw [grp_head_filed hne hall]
    · rintro ⟨c, hc, hkc, hst, hd1, hd2, tmax, htmax, hub, rfl⟩
      subst hkc
      have htiff := grp_times_iff db startD endD hids hc ⟨hst, hd1, hd2⟩
      have htgrp := (htiff tmax).mpr htmax
      obtain ⟨r0, hr0grp, _⟩ := List.mem_map.mp htgrp
      obtain ⟨hr0, hr0key⟩ := List.mem_filter.mp hr0grp
      have hall : ∀ r ∈ (resolutionRows db startD endD).filter
          (fun r => r.1.complaint_id == c.complaint_id), r.1 = c := by
        intro r hr
        obtain ⟨hrow, hkey⟩ := List.mem_filter.mp hr
        exact resolutionRows_fst_eq db startD endD hids hc hrow (by simpa using hkey)
      have hgrpne : ((resolutionRows db startD endD).filter
          (fun r => r.1.complaint_id == c.complaint_id)).map
            (fun r => r.2.2.update_date) ≠ [] :=
        List.ne_nil_of_mem htgrp
      have hmaxeq : listMax (((resolutionRows db startD endD).filter
          (fun r => r.1.complaint_id == c.complaint_id)).map
            (fun r => r.2.2.update_date)) = tmax :=
        le_antisymm (hub _ ((htiff _).mp (listMax_mem hgrpne))) (le_listMax htgrp)
      have hne : (resolutionRows db startD endD).filter
          (fun r => r.1.complaint_id == c.complaint_id) ≠ [] :=
        List.ne_nil_of_mem hr0grp
      refine List.mem_map.mpr ⟨c.complaint_id, List.mem_dedup.mpr ?_, ?_⟩
      · exact List.mem_map.mpr ⟨r0, hr0, by simpa using hr0key⟩
      · rw [grp_head_filed hne hall, hmaxeq]

/-- A store with one resolved complaint, its case, and two `Resolved`
case-updates (timestamps 300 and 500). -/
def exDbResolvedFull : DB :=
  { users := [exOfficer],
    complaints := [exComplaint Status.Resolved],
    cases := [{ case_id := 1, complaint_id := 1, police_officer_id := some 1,
                case_status := Status.Resolved, pdf_path := none,
                date_registered := 150 }],
    caseUpdates :=
      [{ update_id := 1, case_id := 1, officer_badge := "KP001".data,
         status := Status.Resolved, notes := "first".data, update_date := 300 },
       { update_id := 2, case_id := 1, officer_badge := "KP001".data,
         status := Status.Resolved, notes := "again".data, update_date := 500 }],
    nextCaseId := 2, nextUpdateId := 3 }

/-- C8 witness: the rollup theorem instantiated on the concrete store with
two resolved updates. -/
theorem resolution_time_uses_latest_witness :
    ((resolutionData exDbResolvedFull 0 10).map Prod.fst).Nodup
    ∧ ∀ k v, (k, v) ∈ resolutionData exDbResolvedFull 0 10 ↔
        ∃ c ∈ exDbResolvedFull.complaints, c.complaint_id = k
          ∧ c.status = Status.Resolved
          ∧ 0 ≤ dateOfTs c.date_filed ∧ dateOfTs c.date_filed ≤ 10
          ∧ ∃ tmax ∈ resolvedUpdateTimes exDbResolvedFull c,
              (∀ t ∈ resolvedUpdateTimes exDbResolvedFull c, t ≤ tmax)
              ∧ v = (tmax : Int) - (c.date_filed : Int) :=
  resolution_time_uses_latest exDbResolvedFull 0 10
    (by simp [exDbResolvedFull, exComplaint])
